import Mathlib

/-!
Verification of the Roxxllm chat client (long-form-memory-ai frontend).

The repository is a React chat client.  The pieces verified here:

* the conversation / streaming-message state engine (Chat Engine,
  Message Timeline, Streaming Session) — its implementation
  (`ChatContext`) is not among the provided source files, only its
  callers, so it is modelled from the specification text
  (definitions marked `Modelled from the spec:`);
* `authService` error mapping (`src/unnamed/part_001`);
* the theme provider (`ThemeContext`, bundled with
  `MemoryIndicator.jsx`);
* the registration form's local validation (`Register`,
  `src/unnamed/part_000`).
-/

/-- Message role, from the data model: `role ∈ {user, assistant}`. -/
inductive Role where
  | user
  | assistant
deriving DecidableEq, Repr

/-- A persisted chat message:
`{ id, conversation_id, role, content, turn_number }`. -/
structure Message where
  id : Nat
  conversation_id : Nat
  role : Role
  content : String
  turn_number : Nat
deriving DecidableEq, Repr

/-- A conversation: `{ id, title, turn_count }` (we omit `updated_at`,
which no verified operation reads). -/
structure Conversation where
  id : Nat
  title : String
  turn_count : Nat
deriving DecidableEq, Repr

/-- Status of a streaming draft:
`status ∈ {active, completed, cancelled, failed}`. -/
inductive DraftStatus where
  | active
  | completed
  | cancelled
  | failed
deriving DecidableEq, Repr

/-- An in-flight assistant reply:
`{ conversation_id, accumulated_text, status }`. -/
structure StreamingDraft where
  conversation_id : Nat
  accumulated_text : String
  status : DraftStatus
deriving DecidableEq, Repr

/-- The error taxonomy of the engine (§7 of the spec). -/
inductive Err where
  | ValidationError
  | InvalidStateError
  | ConcurrentStreamError
  | OrderingError
  | NotFoundError
  | TransportError (cause : String)
deriving DecidableEq, Repr

/-- The aggregate the view layer observes: `EngineState`. -/
structure EngineState where
  conversations : List Conversation
  current_conversation : Option Conversation
  timeline : List Message
  draft : Option StreamingDraft
  is_busy : Bool
  last_error : Option Err
deriving DecidableEq, Repr

/-- Largest `turn_number` occurring in a timeline, `0` when empty
("the current maximum turn_number for that conversation"). -/
def maxTurn : List Message → Nat
  | [] => 0
  | m :: tl => max m.turn_number (maxTurn tl)

/-- Modelled from the spec: Message-Timeline `append(message)` (§4.2):
inserts preserving turn_number order; rejects with `OrderingError`
a message whose turn_number is not greater than the current maximum. -/
def appendMessage (tl : List Message) (m : Message) : Except Err (List Message) :=
  if maxTurn tl < m.turn_number then .ok (tl ++ [m]) else .error .OrderingError

/-- A failed `append` leaves the timeline unchanged: this is the
timeline a caller holds after an `append` attempt. -/
def appendOrKeep (tl : List Message) (m : Message) : List Message :=
  match appendMessage tl m with
  | .ok tl2 => tl2
  | .error _ => tl

/-- The timeline after a whole sequence of `append` calls. -/
def appendAll (tl : List Message) (ms : List Message) : List Message :=
  ms.foldl appendOrKeep tl

/-- Turn numbers are strictly increasing in display order. -/
def strictlyIncreasing (tl : List Message) : Prop :=
  tl.Pairwise (fun a b => a.turn_number < b.turn_number)

theorem mem_turn_le_maxTurn {m : Message} {tl : List Message}
    (h : m ∈ tl) : m.turn_number ≤ maxTurn tl := by
  induction tl with
  | nil => cases h
  | cons x xs ih =>
    rcases List.mem_cons.mp h with h1 | h2
    · subst h1; exact le_max_left _ _
    · exact le_trans (ih h2) (le_max_right _ _)

theorem appendOrKeep_strictlyIncreasing {tl : List Message} (m : Message)
    (h : strictlyIncreasing tl) : strictlyIncreasing (appendOrKeep tl m) := by
  unfold appendOrKeep appendMessage
  by_cases hc : maxTurn tl < m.turn_number
  · simp only [if_pos hc]
    refine List.pairwise_append.mpr ⟨h, List.pairwise_singleton _ _, ?_⟩
    intro a ha b hb
    rcases List.mem_singleton.mp hb with rfl
    exact lt_of_le_of_lt (mem_turn_le_maxTurn ha) hc
  · simp only [if_neg hc]
    exact h

theorem appendAll_strictlyIncreasing (ms : List Message) {tl : List Message}
    (h : strictlyIncreasing tl) : strictlyIncreasing (appendAll tl ms) := by
  induction ms generalizing tl with
  | nil => exact h
  | cons m ms ih =>
    exact ih (appendOrKeep_strictlyIncreasing m h)

/-- C1: every sequence of `append` calls on a strictly increasing
Message Timeline yields a timeline strictly increasing in turn_number;
an `append` whose message's turn_number is not strictly greater than
the current maximum fails with `OrderingError` and leaves the timeline
exactly unchanged. -/
theorem timeline_append_ordered (tl : List Message)
    (h : strictlyIncreasing tl) :
    (∀ ms : List Message, strictlyIncreasing (appendAll tl ms)) ∧
    (∀ m : Message, m.turn_number ≤ maxTurn tl →
      appendMessage tl m = .error .OrderingError ∧ appendOrKeep tl m = tl) := by
  refine ⟨fun ms => appendAll_strictlyIncreasing ms h, fun m hm => ?_⟩
  have hc : ¬ maxTurn tl < m.turn_number := not_lt.mpr hm
  constructor
  · unfold appendMessage
    simp only [if_neg hc]
  · unfold appendOrKeep appendMessage
    simp only [if_neg hc]

/-- A sample user message with turn number 1. -/
def msgTurn1 : Message :=
  { id := 10, conversation_id := 1, role := .user, content := "hello", turn_number := 1 }

/-- A sample assistant message with turn number 2. -/
def msgTurn2 : Message :=
  { id := 11, conversation_id := 1, role := .assistant, content := "hi", turn_number := 2 }

/-- A duplicate-delivery message: its turn number 1 is not above the
maximum of `[msgTurn1, msgTurn2]`. -/
def msgStale : Message :=
  { id := 12, conversation_id := 1, role := .user, content := "again", turn_number := 1 }

theorem timeline_append_ordered_witness :
    strictlyIncreasing (appendAll [] [msgTurn1, msgTurn2]) ∧
    appendMessage (appendAll [] [msgTurn1, msgTurn2]) msgStale
      = .error .OrderingError := by
  have h0 : strictlyIncreasing ([] : List Message) := List.Pairwise.nil
  have h1 := timeline_append_ordered [] h0
  have h2 : strictlyIncreasing (appendAll [] [msgTurn1, msgTurn2]) :=
    h1.1 [msgTurn1, msgTurn2]
  refine ⟨h2, ?_⟩
  have h3 := timeline_append_ordered (appendAll [] [msgTurn1, msgTurn2]) h2
  exact (h3.2 msgStale (by decide)).1

/-- Whether the Streaming Session is `active` (a draft exists with
status `active`); otherwise the session is `idle`. -/
def sessionActive (e : EngineState) : Bool :=
  match e.draft with
  | some d => d.status = .active
  | none => false

/-- Trimming, over the character list of a string: drop leading and
trailing whitespace ("content is non-empty after trimming"). -/
def trimChars (l : List Char) : List Char :=
  ((l.dropWhile Char.isWhitespace).reverse.dropWhile Char.isWhitespace).reverse

/-- Modelled from the spec: `sendMessage(content)` (§4.4, §4.3, §8).
A second send while a stream is `active` fails with
`ConcurrentStreamError` (§4.3 reentrancy rule, §8); a send with no
`current_conversation` fails with `InvalidStateError`; content empty
after trimming fails with `ValidationError` without contacting the
transport.  On success the user message is optimistically appended
with turn_number = previous max + 1 and a streaming channel is opened
(an `active` draft).  An error return leaves `EngineState` untouched. -/
def sendMessage (e : EngineState) (content : String) : Except Err EngineState :=
  if sessionActive e then .error .ConcurrentStreamError
  else
    match e.current_conversation with
    | none => .error .InvalidStateError
    | some conv =>
      if trimChars content.data = [] then .error .ValidationError
      else
        let userMsg : Message :=
          { id := 0, conversation_id := conv.id, role := .user,
            content := content, turn_number := maxTurn e.timeline + 1 }
        .ok { e with
              timeline := e.timeline ++ [userMsg],
              draft := some { conversation_id := conv.id,
                              accumulated_text := "", status := .active } }

/-- Modelled from the spec: receipt of one streaming chunk (§4.3):
each inbound chunk appends to `accumulated_text` of the active draft. -/
def receiveChunk (e : EngineState) (c : String) : EngineState :=
  match e.draft with
  | some d =>
    if d.status = .active then
      { e with draft := some { d with accumulated_text := d.accumulated_text ++ c } }
    else e
  | none => e

/-- Modelled from the spec: end-of-stream for an active session (§4.3
`completed`): the accumulated text is promoted to a persisted Message
with turn_number = previous max + 1, appended via §4.2; the draft is
cleared and the session returns to `idle`. -/
def completeStream (e : EngineState) : EngineState :=
  match e.draft with
  | some d =>
    if d.status = .active then
      let m : Message :=
        { id := 0, conversation_id := d.conversation_id, role := .assistant,
          content := d.accumulated_text, turn_number := maxTurn e.timeline + 1 }
      match appendMessage e.timeline m with
      | .ok tl2 => { e with timeline := tl2, draft := none }
      | .error err => { e with draft := none, last_error := some err }
    else e
  | none => e

/-- Modelled from the spec: `loadConversations()` (§4.4, §7), with the
transport outcome passed in explicitly: on success the conversation
set is replaced; on failure only `last_error` (and `is_busy`) change
and the prior state is left intact. -/
def loadConversations (e : EngineState)
    (result : Except Err (List Conversation)) : EngineState :=
  match result with
  | .ok cs => { e with conversations := cs, is_busy := false }
  | .error err => { e with is_busy := false, last_error := some err }

/-- Modelled from the spec: the Message Timeline `load(conversation_id)`
read (§4.2, §7) as invoked by the engine, with the transport outcome
passed in explicitly: on success the timeline is replaced; on failure
only `last_error` (and `is_busy`) change. -/
def loadTimeline (e : EngineState)
    (result : Except Err (List Message)) : EngineState :=
  match result with
  | .ok ms => { e with timeline := ms, is_busy := false }
  | .error err => { e with is_busy := false, last_error := some err }

/-- C2: whenever the Streaming Session is `active`, `sendMessage`
fails with `ConcurrentStreamError` and never succeeds, so no second
streaming channel is ever opened. -/
theorem sendMessage_while_active (e : EngineState) (content : String)
    (h : sessionActive e = true) :
    sendMessage e content = .error .ConcurrentStreamError ∧
    ∀ e2 : EngineState, sendMessage e content ≠ .ok e2 := by
  unfold sendMessage
  rw [h]
  simp

/-- A conversation used by concrete test states. -/
def convA : Conversation := { id := 1, title := "A", turn_count := 0 }

/-- An engine state with a stream in flight for `convA`. -/
def engineActive : EngineState :=
  { conversations := [convA], current_conversation := some convA,
    timeline := [msgTurn1],
    draft := some { conversation_id := 1, accumulated_text := "", status := .active },
    is_busy := false, last_error := none }

theorem sendMessage_while_active_witness :
    sessionActive engineActive = true ∧
    sendMessage engineActive "hi" = .error .ConcurrentStreamError :=
  ⟨by decide, (sendMessage_while_active engineActive "hi" (by decide)).1⟩

theorem foldl_receiveChunk (chunks : List String) (e : EngineState)
    (d : StreamingDraft) (hd : e.draft = some d) (hs : d.status = .active) :
    chunks.foldl receiveChunk e =
      { e with draft := some { d with accumulated_text := chunks.foldl (fun a c => a ++ c) d.accumulated_text } } := by
  induction chunks generalizing e d with
  | nil =>
    cases e with
    | mk cs cur tl dr busy err =>
      simp only [List.foldl_nil]
      simp only at hd
      subst hd
      rfl
  | cons c cs ih =>
    have h1 : receiveChunk e c =
        { e with draft := some { d with accumulated_text := d.accumulated_text ++ c } } := by
      unfold receiveChunk
      rw [hd]
      simp [hs]
    rw [List.foldl_cons, h1,
        ih _ { d with accumulated_text := d.accumulated_text ++ c } rfl hs]
    rfl

/-- C3: end-of-stream for an active session whose draft started empty
appends exactly one assistant Message whose turn_number is the previous
maximum plus one and whose content is the concatenation of all chunks
in arrival order; the draft is cleared and the session is `idle`. -/
theorem stream_completion (e : EngineState) (d : StreamingDraft)
    (chunks : List String) (hd : e.draft = some d) (hs : d.status = .active)
    (ha : d.accumulated_text = "") :
    (completeStream (chunks.foldl receiveChunk e)).timeline =
      e.timeline ++
        [{ id := 0, conversation_id := d.conversation_id, role := .assistant,
           content := chunks.foldl (fun a c => a ++ c) "",
           turn_number := maxTurn e.timeline + 1 }] ∧
    (completeStream (chunks.foldl receiveChunk e)).draft = none ∧
    sessionActive (completeStream (chunks.foldl receiveChunk e)) = false := by
  rw [foldl_receiveChunk chunks e d hd hs, ha]
  simp [completeStream, appendMessage, sessionActive, hs, Nat.lt_succ_self]

theorem stream_completion_witness :
    (completeStream (["Hi", " there"].foldl receiveChunk engineActive)).timeline =
      engineActive.timeline ++
        [{ id := 0, conversation_id := 1, role := .assistant,
           content := ["Hi", " there"].foldl (fun a c => a ++ c) "",
           turn_number := maxTurn engineActive.timeline + 1 }] ∧
    (completeStream (["Hi", " there"].foldl receiveChunk engineActive)).draft = none ∧
    sessionActive (completeStream (["Hi", " there"].foldl receiveChunk engineActive)) = false :=
  stream_completion engineActive
    { conversation_id := 1, accumulated_text := "", status := .active }
    ["Hi", " there"] rfl rfl rfl

/-- An engine state with a current conversation and an idle session. -/
def engineIdle : EngineState :=
  { conversations := [convA], current_conversation := some convA,
    timeline := [msgTurn1], draft := none, is_busy := false, last_error := none }

/-- An engine state with no current conversation and an idle session. -/
def engineNoConv : EngineState :=
  { conversations := [], current_conversation := none,
    timeline := [], draft := none, is_busy := false, last_error := none }

/-- C4 counterexample: with a current conversation present but the
Streaming Session `active` (not idle), `sendMessage` fails with
`ConcurrentStreamError`, not `InvalidStateError` as the claim states
for every non-idle session. -/
theorem sendMessage_not_invalid_state_when_active :
    sessionActive engineActive = true ∧
    engineActive.current_conversation = some convA ∧
    sendMessage engineActive "hello" = .error .ConcurrentStreamError ∧
    ¬ sendMessage engineActive "hello" = .error .InvalidStateError := by
  have h : sendMessage engineActive "hello" = .error .ConcurrentStreamError := rfl
  refine ⟨rfl, rfl, h, ?_⟩
  rw [h]
  simp

/-- C4 (amended): `sendMessage` fails with `ConcurrentStreamError` when
the Streaming Session is `active`; with `InvalidStateError` when the
session is idle but `current_conversation` is absent; with
`ValidationError` when the content is empty after trimming (an error
return changes no state, so the transport is never contacted and the
timeline is unchanged); otherwise it appends the user message and
begins a Streaming Session. -/
theorem sendMessage_preconditions (e : EngineState) (content : String) :
    (sessionActive e = true → sendMessage e content = .error .ConcurrentStreamError) ∧
    (sessionActive e = false → e.current_conversation = none →
      sendMessage e content = .error .InvalidStateError) ∧
    (∀ conv : Conversation, sessionActive e = false →
      e.current_conversation = some conv → trimChars content.data = [] →
      sendMessage e content = .error .ValidationError) ∧
    (∀ conv : Conversation, sessionActive e = false →
      e.current_conversation = some conv → trimChars content.data ≠ [] →
      sendMessage e content = .ok { e with
        timeline := e.timeline ++
          [{ id := 0, conversation_id := conv.id, role := .user,
             content := content, turn_number := maxTurn e.timeline + 1 }],
        draft := some { conversation_id := conv.id,
                        accumulated_text := "", status := .active } }) := by
  refine ⟨?_, ?_, ?_, ?_⟩
  · intro hs
    simp [sendMessage, hs]
  · intro hs hc
    simp [sendMessage, hs, hc]
  · intro conv hs hc ht
    simp [sendMessage, hs, hc, ht]
  · intro conv hs hc ht
    simp [sendMessage, hs, hc, ht]

theorem sendMessage_preconditions_witness :
    sendMessage engineActive "hello" = .error .ConcurrentStreamError ∧
    sendMessage engineNoConv "hello" = .error .InvalidStateError ∧
    sendMessage engineIdle "   " = .error .ValidationError :=
  ⟨(sendMessage_preconditions engineActive "hello").1 (by decide),
   (sendMessage_preconditions engineNoConv "hello").2.1 (by decide) rfl,
   (sendMessage_preconditions engineIdle "   ").2.2.1 convA (by decide) rfl (by decide)⟩

/-- C5: a transport failure during a read (`loadConversations` or a
timeline load) changes nothing but `is_busy` and `last_error`:
`conversations`, `current_conversation`, `timeline` and `draft` all
keep their prior values. -/
theorem read_failure_frame (e : EngineState) (err : Err) :
    (loadConversations e (.error err)).conversations = e.conversations ∧
    (loadConversations e (.error err)).current_conversation = e.current_conversation ∧
    (loadConversations e (.error err)).timeline = e.timeline ∧
    (loadConversations e (.error err)).draft = e.draft ∧
    (loadConversations e (.error err)).last_error = some err ∧
    (loadTimeline e (.error err)).conversations = e.conversations ∧
    (loadTimeline e (.error err)).current_conversation = e.current_conversation ∧
    (loadTimeline e (.error err)).timeline = e.timeline ∧
    (loadTimeline e (.error err)).draft = e.draft ∧
    (loadTimeline e (.error err)).last_error = some err :=
  ⟨rfl, rfl, rfl, rfl, rfl, rfl, rfl, rfl, rfl, rfl⟩

/-- The error object axios hands to `authService`'s catch blocks:
`error.response?.status` and `error.code`, plus the raw transport
message, which the mapping must never surface. -/
structure ApiError where
  status : Option Nat
  code : Option String
  raw : String
deriving DecidableEq, Repr

/-- `authService.login` catch block (src/unnamed/part_001, lines 17-28). -/
def mapLoginError (e : ApiError) : String :=
  if e.status = some 401 then
    "Invalid email or password. Please check your credentials and try again."
  else if e.status = some 404 then
    "User not found. Please check your email or register for a new account."
  else if e.code = some "NETWORK_ERROR" then
    "Network connection failed. Please check your internet connection and try again."
  else
    "Login failed. Please try again later."

/-- `authService.register` catch block (src/unnamed/part_001, lines 39-50). -/
def mapRegisterError (e : ApiError) : String :=
  if e.status = some 400 then
    "Invalid registration details. Please check your email, username, and password."
  else if e.status = some 409 then
    "Email or username already taken. Please choose a different email or username."
  else if e.code = some "NETWORK_ERROR" then
    "Network connection failed. Please check your internet connection and try again."
  else
    "Registration failed. Please try again later."

/-- `authService.loginWithGoogle` catch block (src/unnamed/part_001, lines 57-65). -/
def mapGoogleError (e : ApiError) : String :=
  if e.status = some 400 then
    "Google authentication failed. Please try again."
  else if e.code = some "NETWORK_ERROR" then
    "Network connection failed. Please check your internet connection and try again."
  else
    "Google login failed. Please try again later."

/-- `authService.getMe` catch block (src/unnamed/part_001, lines 72-80). -/
def mapGetMeError (e : ApiError) : String :=
  if e.status = some 401 then
    "Authentication expired. Please log in again."
  else if e.code = some "NETWORK_ERROR" then
    "Network connection failed. Please check your internet connection and try again."
  else
    "Failed to get user information. Please try again."

/-- `authService.refreshToken` catch block (src/unnamed/part_001, lines 89-97). -/
def mapRefreshError (e : ApiError) : String :=
  if e.status = some 401 then
    "Refresh token expired. Please log in again."
  else if e.code = some "NETWORK_ERROR" then
    "Network connection failed. Please check your internet connection and try again."
  else
    "Token refresh failed. Please log in again."

/-- `authService.deleteAccount` catch block (src/unnamed/part_001, lines 103-113). -/
def mapDeleteError (e : ApiError) : String :=
  if e.status = some 401 then
    "Authentication required. Please log in again."
  else if e.status = some 404 then
    "User not found."
  else if e.code = some "NETWORK_ERROR" then
    "Network connection failed. Please check your internet connection and try again."
  else
    "Account deletion failed. Please try again."

/-- The fixed human-actionable messages of `authService.login`. -/
def loginMessages : List String :=
  ["Invalid email or password. Please check your credentials and try again.",
   "User not found. Please check your email or register for a new account.",
   "Network connection failed. Please check your internet connection and try again.",
   "Login failed. Please try again later."]

/-- The fixed human-actionable messages of `authService.register`. -/
def registerMessages : List String :=
  ["Invalid registration details. Please check your email, username, and password.",
   "Email or username already taken. Please choose a different email or username.",
   "Network connection failed. Please check your internet connection and try again.",
   "Registration failed. Please try again later."]

/-- The fixed human-actionable messages of `authService.loginWithGoogle`. -/
def googleMessages : List String :=
  ["Google authentication failed. Please try again.",
   "Network connection failed. Please check your internet connection and try again.",
   "Google login failed. Please try again later."]

/-- The fixed human-actionable messages of `authService.getMe`. -/
def getMeMessages : List String :=
  ["Authentication expired. Please log in again.",
   "Network connection failed. Please check your internet connection and try again.",
   "Failed to get user information. Please try again."]

/-- The fixed human-actionable messages of `authService.refreshToken`. -/
def refreshMessages : List String :=
  ["Refresh token expired. Please log in again.",
   "Network connection failed. Please check your internet connection and try again.",
   "Token refresh failed. Please log in again."]

/-- The fixed human-actionable messages of `authService.deleteAccount`. -/
def deleteMessages : List String :=
  ["Authentication required. Please log in again.",
   "User not found.",
   "Network connection failed. Please check your internet connection and try again.",
   "Account deletion failed. Please try again."]

/-- C6: every failure of each authentication operation is mapped to
one of a fixed set of human-actionable messages; the mapping reads
only `status` and `code`, so the raw transport error never reaches the
caller; `login` distinguishes invalid credentials (401), user not
found (404), network failure, and a generic fallback by four pairwise
distinct messages. -/
theorem auth_failures_mapped (e : ApiError) :
    mapLoginError e ∈ loginMessages ∧
    mapRegisterError e ∈ registerMessages ∧
    mapGoogleError e ∈ googleMessages ∧
    mapGetMeError e ∈ getMeMessages ∧
    mapRefreshError e ∈ refreshMessages ∧
    mapDeleteError e ∈ deleteMessages ∧
    (∀ r : String,
      mapLoginError { e with raw := r } = mapLoginError e ∧
      mapRegisterError { e with raw := r } = mapRegisterError e ∧
      mapGoogleError { e with raw := r } = mapGoogleError e ∧
      mapGetMeError { e with raw := r } = mapGetMeError e ∧
      mapRefreshError { e with raw := r } = mapRefreshError e ∧
      mapDeleteError { e with raw := r } = mapDeleteError e) ∧
    loginMessages.Pairwise (fun a b => a ≠ b) := by
  refine ⟨?_, ?_, ?_, ?_, ?_, ?_, fun r => ⟨rfl, rfl, rfl, rfl, rfl, rfl⟩, by decide⟩
  · unfold mapLoginError loginMessages
    split_ifs <;> simp
  · unfold mapRegisterError registerMessages
    split_ifs <;> simp
  · unfold mapGoogleError googleMessages
    split_ifs <;> simp
  · unfold mapGetMeError getMeMessages
    split_ifs <;> simp
  · unfold mapRefreshError refreshMessages
    split_ifs <;> simp
  · unfold mapDeleteError deleteMessages
    split_ifs <;> simp

/-- The single namespaced localStorage key of the theme preference
(`THEME_STORAGE_KEY` in `ThemeContext`). -/
def THEME_STORAGE_KEY : String := "memory-ai-theme"

/-- localStorage contents: a partial map from keys to stored values. -/
def Storage : Type := String → Option String

/-- `getInitialTheme` from `ThemeContext`: the stored value under
`THEME_STORAGE_KEY` when it is `light` or `dark`, else the system
color-scheme preference. -/
def getInitialTheme (storage : Storage) (prefersDark : Bool) : String :=
  let stored := storage THEME_STORAGE_KEY
  if stored = some "light" then "light"
  else if stored = some "dark" then "dark"
  else if prefersDark then "dark" else "light"

/-- The `useEffect` on `[theme]` in `ThemeProvider`:
`localStorage.setItem(THEME_STORAGE_KEY, theme)` after every change. -/
def persistTheme (storage : Storage) (theme : String) : Storage :=
  fun k => if k = THEME_STORAGE_KEY then some theme else storage k

/-- C7: at startup the theme equals the value stored under
`memory-ai-theme` whenever it is `light` or `dark`, and otherwise the
system preference; every theme change is written back under the same
key, leaving every other key untouched. -/
theorem theme_startup_persistence (storage : Storage) (prefersDark : Bool) :
    (storage THEME_STORAGE_KEY = some "light" →
      getInitialTheme storage prefersDark = "light") ∧
    (storage THEME_STORAGE_KEY = some "dark" →
      getInitialTheme storage prefersDark = "dark") ∧
    (storage THEME_STORAGE_KEY ≠ some "light" →
     storage THEME_STORAGE_KEY ≠ some "dark" →
      getInitialTheme storage prefersDark = if prefersDark then "dark" else "light") ∧
    (∀ theme : String, persistTheme storage theme THEME_STORAGE_KEY = some theme) ∧
    (∀ theme k, k ≠ THEME_STORAGE_KEY → persistTheme storage theme k = storage k) := by
  refine ⟨?_, ?_, ?_, fun theme => ?_, fun theme k hk => ?_⟩
  · intro h
    simp [getInitialTheme, h]
  · intro h
    simp [getInitialTheme, h]
  · intro h1 h2
    simp [getInitialTheme, h1, h2]
  · simp [persistTheme]
  · simp [persistTheme, hk]

/-- A storage holding `light` under the theme key. -/
def storageLight : Storage :=
  fun k => if k = THEME_STORAGE_KEY then some "light" else none

/-- A storage holding a value that is neither `light` nor `dark`. -/
def storageJunk : Storage :=
  fun k => if k = THEME_STORAGE_KEY then some "blue" else none

theorem theme_startup_persistence_witness :
    getInitialTheme storageLight false = "light" ∧
    getInitialTheme storageJunk true = "dark" ∧
    persistTheme storageJunk "dark" THEME_STORAGE_KEY = some "dark" ∧
    persistTheme storageJunk "dark" "other-key" = storageJunk "other-key" :=
  ⟨(theme_startup_persistence storageLight false).1 rfl,
   ((theme_startup_persistence storageJunk true).2.2.1 (by decide) (by decide)).trans rfl,
   (theme_startup_persistence storageJunk true).2.2.2.1 "dark",
   (theme_startup_persistence storageJunk true).2.2.2.2 "dark" "other-key" (by decide)⟩

/-- What `Register.handleSubmit` does before any navigation: either a
local validation message is set, or the `register` transport operation
is invoked with the form fields. -/
inductive SubmitOutcome where
  | validationMsg (msg : String)
  | callRegister (email username password : String)
deriving DecidableEq, Repr

/-- `Register.handleSubmit` (src/unnamed/part_000, lines 26-46): the
confirmation check, then the length check, then the `register` call. -/
def handleSubmit (email username password confirmPassword : String) : SubmitOutcome :=
  if password ≠ confirmPassword then .validationMsg "Passwords do not match"
  else if password.length < 6 then .validationMsg "Password must be at least 6 characters"
  else .callRegister email username password

/-- C9: on registration submit, a password/confirmation mismatch or a
password shorter than 6 characters sets a local validation message and
never invokes the `register` transport operation; the transport is
contacted, with the form fields, exactly when both local checks pass. -/
theorem register_local_validation (email username password confirmPassword : String) :
    (password ≠ confirmPassword →
      handleSubmit email username password confirmPassword =
        .validationMsg "Passwords do not match") ∧
    (password = confirmPassword → password.length < 6 →
      handleSubmit email username password confirmPassword =
        .validationMsg "Password must be at least 6 characters") ∧
    (password = confirmPassword → 6 ≤ password.length →
      handleSubmit email username password confirmPassword =
        .callRegister email username password) ∧
    (∀ e2 u2 p2, handleSubmit email username password confirmPassword =
        .callRegister e2 u2 p2 →
      password = confirmPassword ∧ 6 ≤ password.length) := by
  refine ⟨?_, ?_, ?_, ?_⟩
  · intro h
    simp [handleSubmit, h]
  · intro h hlen
    subst h
    simp [handleSubmit, hlen]
  · intro h hlen
    subst h
    simp [handleSubmit, Nat.not_lt.mpr hlen]
  · intro e2 u2 p2 h
    unfold handleSubmit at h
    split_ifs at h with h1 h2
    · exact ⟨not_not.mp h1, Nat.not_lt.mp h2⟩

theorem register_local_validation_witness :
    handleSubmit "a@b.c" "u" "secret1" "secret2" =
      .validationMsg "Passwords do not match" ∧
    handleSubmit "a@b.c" "u" "abc" "abc" =
      .validationMsg "Password must be at least 6 characters" ∧
    handleSubmit "a@b.c" "u" "secret1" "secret1" =
      .callRegister "a@b.c" "u" "secret1" :=
  ⟨(register_local_validation "a@b.c" "u" "secret1" "secret2").1 (by decide),
   (register_local_validation "a@b.c" "u" "abc" "abc").2.1 rfl (by decide),
   (register_local_validation "a@b.c" "u" "secret1" "secret1").2.2.1 rfl (by decide)⟩

/-- `toggleTheme` from `ThemeProvider`:
`setTheme(prev => (prev === 'dark' ? 'light' : 'dark'))`. -/
def toggleTheme (theme : String) : String :=
  if theme = "dark" then "light" else "dark"

/-- C10: `toggleTheme` maps `dark` to `light` and any other theme
value to `dark`; on `{light, dark}` it is an involution. -/
theorem toggleTheme_involution :
    toggleTheme "dark" = "light" ∧
    (∀ t : String, t ≠ "dark" → toggleTheme t = "dark") ∧
    (∀ t : String, t = "light" ∨ t = "dark" →
      toggleTheme (toggleTheme t) = t) := by
  refine ⟨rfl, ?_, ?_⟩
  · intro t ht
    simp [toggleTheme, ht]
  · intro t ht
    rcases ht with rfl | rfl <;> rfl

theorem toggleTheme_involution_witness :
    toggleTheme "light" = "dark" ∧
    toggleTheme (toggleTheme "light") = "light" :=
  ⟨toggleTheme_involution.2.1 "light" (by decide),
   toggleTheme_involution.2.2 "light" (Or.inl rfl)⟩
